import Mathlib

set_option maxRecDepth 10000
set_option linter.unusedVariables false

/-!
Shallow embedding of the mock-interview backend (`backend/main.py`,
`backend/models.py`, `backend/services/openai_llm.py`,
`backend/services/tts_openai.py`).

The session store is modelled as a `Store` holding the in-memory cache
(`SESSIONS`), the durable working-copy files (`DATA_DIR/{id}.work.json`)
and the durable summary files (`DATA_DIR/{id}.json`), each as an
association list from session id to the parsed state.  External effects
are passed explicitly: the generated uuid, the random question sample,
the outcome of durable writes, of the LLM chat call, of the TTS call and
of file deletions are parameters of the corresponding operations.
-/

/-- Interviewer style literal, `InterviewerStyle = Literal["neutral", "challenging"]`. -/
inductive InterviewerStyle
  | neutral
  | challenging
deriving DecidableEq

/-- Feedback mode literal, `FeedbackMode = Literal["real", "fake", "none"]`. -/
inductive FeedbackMode
  | real
  | fake
  | none
deriving DecidableEq

/-- Voice features record from `models.VoiceFeatures`.  The numeric signals are
an opaque payload carried verbatim by the core (no arithmetic is ever performed
on them), so the float-typed fields are represented by integers. -/
structure VoiceFeatures where
  nervousness_score : Int
  avg_rms : Int
  silence_ratio : Int
  intensity_variance : Int
  speech_rate : Int
  filler_count : Nat
  repetition_count : Nat
  duration_sec : Int
deriving DecidableEq

/-- Consent request body, `models.ConsentRequest`. -/
structure ConsentRequest where
  accepted : Bool
deriving DecidableEq

/-- Session configuration, `models.SessionConfig`. -/
structure SessionConfig where
  interviewer_style : InterviewerStyle
  feedback_mode : FeedbackMode
deriving DecidableEq

/-- Baseline upload body, `models.BaselineUpload`. -/
structure BaselineUpload where
  voice_features : VoiceFeatures
deriving DecidableEq

/-- Question response model, `models.Question`. -/
structure Question where
  id : Int
  text : String
  audio_url : Option String := Option.none
deriving DecidableEq

/-- Answer upload body, `models.AnswerUpload`. -/
structure AnswerUpload where
  question_id : Int
  transcript : Option String := Option.none
  voice_features : VoiceFeatures
deriving DecidableEq

/-- Follow-up response model, `models.FollowupResponse`. -/
structure FollowupResponse where
  followup_text : String
  audio_url : Option String := Option.none
deriving DecidableEq

/-- Survey response body, `models.SurveyResponse`. -/
structure SurveyResponse where
  q1 : Int
  q2 : Int
  q3 : Int
  q4 : Int
  q5 : Int
  q6 : Int
  q7 : Int
  q8 : Int
  q9 : Int
  q10_text : Option String := Option.none
deriving DecidableEq

/-- A stored question record, the dict `{"id": i, "text": q}` kept in
`sess["questions"]`. -/
structure QuestionRec where
  id : Int
  text : String
deriving DecidableEq

/-- A stored answer record, the dict built in `submit_answer`. -/
structure AnswerRecord where
  question_id : Int
  question_text : String
  transcript : Option String
  voice_features : VoiceFeatures
deriving DecidableEq

/-- The in-memory / working-copy session state, the dict built in
`start_session`.  `survey` models the optional `"survey"` key read with
`sess.get("survey")`. -/
structure SessionState where
  consent : Bool
  config : Option SessionConfig
  baseline : Option VoiceFeatures
  questions : List QuestionRec
  answers : List AnswerRecord
  current_q_index : Nat
  audio_files : List String
  survey : Option SurveyResponse := Option.none
deriving DecidableEq

/-- The durable summary file content, `models.SessionSummary` as serialised by
`finish_session` and re-read by `submit_survey`. -/
structure SummaryData where
  session_id : String
  interviewer_style : InterviewerStyle
  feedback_mode : FeedbackMode
  baseline : Option VoiceFeatures
  questions : List Question
  answers : List AnswerRecord
  survey : Option SurveyResponse
deriving DecidableEq

/-- An `HTTPException(status_code=..., detail=...)` raised by a handler
(or a 500 for an uncaught exception). -/
structure HTTPError where
  status : Nat
  detail : String
deriving DecidableEq

/-- Outcome of a `Path.unlink()` call: success, `FileNotFoundError`, or any
other `Exception`. -/
inductive UnlinkOutcome
  | ok
  | missing
  | otherError
deriving DecidableEq

/-- Association-list lookup, the read of a Python dict / keyed file store. -/
def alookup {α : Type} : List (String × α) → String → Option α
  | [], _ => Option.none
  | (k', v) :: rest, k => if k' = k then some v else alookup rest k

/-- Association-list update, the write of a Python dict / keyed file store:
replaces the binding for `k` if present, otherwise appends it. -/
def aset {α : Type} : List (String × α) → String → α → List (String × α)
  | [], k, v => [(k, v)]
  | (k', v') :: rest, k, v =>
      if k' = k then (k, v) :: rest else (k', v') :: aset rest k v

/-- Association-list removal, `del d[k]` / file deletion: removes every
binding for `k` (a dict never holds duplicates, so this agrees with
removing the unique one). -/
def aerase {α : Type} : List (String × α) → String → List (String × α)
  | [], _ => []
  | (k', v) :: rest, k =>
      if k' = k then aerase rest k else (k', v) :: aerase rest k

theorem alookup_aset_self {α : Type} (l : List (String × α)) (k : String) (v : α) :
    alookup (aset l k v) k = some v := by
  induction l with
  | nil => simp [aset, alookup]
  | cons p rest ih =>
    obtain ⟨k', v'⟩ := p
    by_cases h : k' = k
    · simp [aset, alookup, h]
    · simp [aset, alookup, h, ih]

theorem alookup_aset_ne {α : Type} (l : List (String × α)) (k k' : String) (v : α)
    (h : k ≠ k') : alookup (aset l k v) k' = alookup l k' := by
  induction l with
  | nil => simp [aset, alookup, h]
  | cons p rest ih =>
    obtain ⟨k₀, v₀⟩ := p
    by_cases h₀ : k₀ = k
    · subst h₀
      simp [aset, alookup, h]
    · simp [aset, alookup, h₀, ih]

theorem alookup_aerase_self {α : Type} (l : List (String × α)) (k : String) :
    alookup (aerase l k) k = Option.none := by
  induction l with
  | nil => simp [aerase, alookup]
  | cons p rest ih =>
    obtain ⟨k₀, v₀⟩ := p
    by_cases h₀ : k₀ = k
    · simp [aerase, h₀, ih]
    · simp [aerase, alookup, h₀, ih]

theorem mem_aset {α : Type} {l : List (String × α)} {k : String} {v : α}
    {p : String × α} (h : p ∈ aset l k v) : p = (k, v) ∨ p ∈ l := by
  induction l with
  | nil => simpa [aset] using h
  | cons q rest ih =>
    obtain ⟨k₀, v₀⟩ := q
    by_cases h₀ : k₀ = k
    · simp [aset, h₀] at h
      rcases h with h | h
      · exact Or.inl h
      · exact Or.inr (List.mem_cons_of_mem _ h)
    · simp [aset, h₀] at h
      rcases h with h | h
      · exact Or.inr (by simp [h])
      · rcases ih h with h' | h'
        · exact Or.inl h'
        · exact Or.inr (List.mem_cons_of_mem _ h')

theorem mem_aerase {α : Type} {l : List (String × α)} {k : String}
    {p : String × α} (h : p ∈ aerase l k) : p ∈ l := by
  induction l with
  | nil => simp [aerase] at h
  | cons q rest ih =>
    obtain ⟨k₀, v₀⟩ := q
    by_cases h₀ : k₀ = k
    · simp [aerase, h₀] at h
      exact List.mem_cons_of_mem _ (ih h)
    · simp [aerase, h₀] at h
      rcases h with h | h
      · simp [h]
      · exact List.mem_cons_of_mem _ (ih h)

theorem alookup_mem {α : Type} {l : List (String × α)} {k : String} {v : α}
    (h : alookup l k = some v) : (k, v) ∈ l := by
  induction l with
  | nil => simp [alookup] at h
  | cons q rest ih =>
    obtain ⟨k₀, v₀⟩ := q
    by_cases h₀ : k₀ = k
    · subst h₀
      simp [alookup] at h
      simp [h]
    · simp [alookup, h₀] at h
      exact List.mem_cons_of_mem _ (ih h)

/-- The question pool `GENERAL_QUESTIONS` of `services/openai_llm.py`. -/
def GENERAL_QUESTIONS : List String :=
  [ "Describe a time you faced a challenge and how you handled it.",
    "Tell me about a time you worked in a team.",
    "Describe a situation where you had to learn something quickly.",
    "Tell me about a time when you had to deal with a difficult teammate or stakeholder.",
    "Describe a time you made a mistake and how you handled it.",
    "Tell me about a time you had to work under pressure or a tight deadline.",
    "Describe a time you showed leadership, even if you were not the formal leader.",
    "Tell me about a time when you received critical feedback. How did you respond?",
    "Describe a time when you disagreed with someone at work or school. What did you do?",
    "Tell me about a time you had to prioritize multiple tasks or projects.",
    "Describe a situation where you went above and beyond what was expected.",
    "Tell me about a time when you had to solve a complex problem.",
    "Describe a time when you had to adapt to a major change.",
    "Tell me about a time you helped someone else succeed.",
    "Describe a project or situation that you are particularly proud of." ]

/-- The function `pick_three_questions`: returns the whole pool when it has at
most 3 elements, otherwise `random.sample(GENERAL_QUESTIONS, k=3)`; the
randomness is supplied explicitly as `sample` (always a list of 3 elements
drawn from the pool). -/
def pick_three_questions (sample : List String) : List String :=
  if GENERAL_QUESTIONS.length ≤ 3 then GENERAL_QUESTIONS else sample

/-- Python `str.strip()` (both ends, whitespace), written by structural
recursion over the character list so that concrete inputs evaluate. -/
def pyStrip (s : String) : String :=
  ⟨((s.data.dropWhile Char.isWhitespace).reverse.dropWhile Char.isWhitespace).reverse⟩

/-- Whether `pre` is a prefix of `l` (character lists). -/
def isPrefixList : List Char → List Char → Bool
  | [], _ => true
  | _ :: _, [] => false
  | a :: as, b :: bs => a = b && isPrefixList as bs

/-- Whether `sep` occurs somewhere in `l` (Python `sep in s`). -/
def containsSub (sep : List Char) : List Char → Bool
  | [] => isPrefixList sep []
  | c :: cs => isPrefixList sep (c :: cs) || containsSub sep cs

/-- One Python-style left-to-right scan recording the suffix after the last
non-overlapping occurrence of `sep` (`s.split(sep)[-1]`, and for a one-char
separator also `s.rsplit(sep, 1)[-1]`).  `fuel` only bounds the recursion and
is instantiated with the input length, which the scan never exhausts. -/
def splitLastAux (sep : List Char) : Nat → List Char → List Char → List Char
  | _, cur, [] => cur
  | 0, cur, _ :: _ => cur
  | fuel + 1, cur, c :: cs =>
      if isPrefixList sep (c :: cs) then
        splitLastAux sep fuel (List.drop sep.length (c :: cs))
          (List.drop sep.length (c :: cs))
      else
        splitLastAux sep fuel cur cs

/-- The last element of the Python split of `l` on a nonempty `sep`. -/
def splitLast (sep : List Char) (l : List Char) : List Char :=
  splitLastAux sep l.length l l

/-- The fallback feedback sentence returned by `generate_followup` for the
neutral style when the chat call raises. -/
def NEUTRAL_FALLBACK : String :=
  "Thanks for your answer. Overall it's a good start — next time, try to make the situation and your specific actions a bit clearer, and highlight the result more explicitly."

/-- The fallback feedback sentence returned by `generate_followup` for any
non-neutral style when the chat call raises. -/
def CHALLENGING_FALLBACK : String :=
  "Thanks for your answer. Right now the situation and your impact are still a bit vague — next time, be more concrete about what you did and what changed because of you."

/-- The function `generate_followup` of `services/openai_llm.py`.  The outcome
of the external chat-completion call is passed as `llmOutcome`: `some content`
when the call returns `content`, `Option.none` when anything inside the `try`
block raises.  On success the code returns `content.strip()`; on failure it
returns a deterministic fallback sentence chosen by the style string. -/
def generate_followup (llmOutcome : Option String) (style : String)
    (question : String) (transcript : Option String) : String :=
  match llmOutcome with
  | some content => pyStrip content
  | Option.none =>
      if style = "neutral" then NEUTRAL_FALLBACK else CHALLENGING_FALLBACK

/-- The function `synthesize_tts` of `services/tts_openai.py`.  The outcome of
the external speech call is passed as `ttsOutcome` (`true` when synthesis and
the file write succeed, `false` when anything inside the `try` block raises).
Empty (after strip) input returns `""`; a failure is caught and returns `""`;
success returns the URL `/audio/{session_id}_q{q_index}_{kind}.mp3`. -/
def synthesize_tts (ttsOutcome : Bool) (text : String) (session_id : String)
    (q_index : Nat) (kind : String) : String :=
  let t := pyStrip text
  if t = "" then ""
  else
    let filename := session_id ++ "_q" ++ toString q_index ++ "_" ++ kind ++ ".mp3"
    if ttsOutcome then "/audio/" ++ filename else ""

/-- The file name a stored audio URL is mapped back to in `finish_session`:
`url.split("/audio/")[-1]` when the URL contains `/audio/`, otherwise
`url.rsplit("/", 1)[-1]`. -/
def audioFileName (url : String) : String :=
  if containsSub "/audio/".data url.data then
    ⟨splitLast "/audio/".data url.data⟩
  else
    ⟨splitLast "/".data url.data⟩

/-- The per-URL deletion loop of `finish_session`: skips falsy URLs, computes
the file name, attempts `unlink` and catches both `FileNotFoundError` and any
other exception, so the loop continues whatever the outcome.  The returned
list records each attempted file name with the outcome the file system gave. -/
def deleteAudioFiles (unlinkOutcome : String → UnlinkOutcome) :
    List String → List (String × UnlinkOutcome)
  | [] => []
  | url :: rest =>
      if url = "" then deleteAudioFiles unlinkOutcome rest
      else
        (audioFileName url, unlinkOutcome (audioFileName url)) ::
          deleteAudioFiles unlinkOutcome rest

/-- The interviewer-style string stored in the session dict for a typed
configuration (`config.dict()` serialises the literal). -/
def styleString : InterviewerStyle → String
  | .neutral => "neutral"
  | .challenging => "challenging"

/-- The whole storage state of the process: the in-memory dict `SESSIONS`, the
working-copy files `DATA_DIR/{id}.work.json` (parsed), and the summary files
`DATA_DIR/{id}.json` (parsed). -/
structure Store where
  sessions : List (String × SessionState)
  workFiles : List (String × SessionState)
  summaries : List (String × SummaryData)
deriving DecidableEq

/-- The empty storage state at process start. -/
def emptyStore : Store :=
  { sessions := [], workFiles := [], summaries := [] }

/-- The helper `_save_session`: writes the working copy, and on any write
failure only logs — the error is never propagated, the store is simply left
without the new snapshot.  `writeOk` is the outcome of the durable write. -/
def _save_session (writeOk : Bool) (st : Store) (session_id : String)
    (sess : SessionState) : Store :=
  if writeOk then { st with workFiles := aset st.workFiles session_id sess }
  else st

/-- The helper `_get_session`: cache first; on a miss, an existing working
copy is loaded and the cache repopulated before returning.  (A stored session
dict is never empty nor unparsable in the model, so the truthiness test and
the `json.load` of the code always succeed on a present entry.) -/
def _get_session (st : Store) (session_id : String) :
    Option SessionState × Store :=
  match alookup st.sessions session_id with
  | some sess => (some sess, st)
  | Option.none =>
      match alookup st.workFiles session_id with
      | some data =>
          (some data, { st with sessions := aset st.sessions session_id data })
      | Option.none => (Option.none, st)

/-- The fresh session dict built by `start_session`. -/
def initialSession (questions : List String) : SessionState :=
  { consent := true
    config := Option.none
    baseline := Option.none
    questions := (List.enumFrom 1 questions).map (fun p => { id := (p.1 : Int), text := p.2 })
    answers := []
    current_q_index := 0
    audio_files := []
    survey := Option.none }

/-- The handler `POST /session/start`.  `new_id` is the generated uuid,
`sample` the random question sample, `writeOk` the outcome of the initial
durable write. -/
def start_session (st : Store) (new_id : String) (sample : List String)
    (writeOk : Bool) (consent : ConsentRequest) :
    Except HTTPError String × Store :=
  if consent.accepted = false then
    (.error ⟨400, "Consent not accepted"⟩, st)
  else
    let questions := pick_three_questions sample
    let sess := initialSession questions
    let st₁ : Store := { st with sessions := aset st.sessions new_id sess }
    (.ok new_id, _save_session writeOk st₁ new_id sess)

/-- The handler `POST /session/{session_id}/config`. -/
def set_config (st : Store) (writeOk : Bool) (session_id : String)
    (config : SessionConfig) : Except HTTPError Unit × Store :=
  match _get_session st session_id with
  | (Option.none, st₁) => (.error ⟨404, "Session not found"⟩, st₁)
  | (some sess, st₁) =>
      let sess₂ := { sess with config := some config }
      let st₂ : Store := { st₁ with sessions := aset st₁.sessions session_id sess₂ }
      (.ok (), _save_session writeOk st₂ session_id sess₂)

/-- The handler `POST /session/{session_id}/baseline`. -/
def upload_baseline (st : Store) (writeOk : Bool) (session_id : String)
    (baseline : BaselineUpload) : Except HTTPError Unit × Store :=
  match _get_session st session_id with
  | (Option.none, st₁) => (.error ⟨404, "Session not found"⟩, st₁)
  | (some sess, st₁) =>
      let sess₂ := { sess with baseline := some baseline.voice_features }
      let st₂ : Store := { st₁ with sessions := aset st₁.sessions session_id sess₂ }
      (.ok (), _save_session writeOk st₂ session_id sess₂)

/-- The handler `GET /session/{session_id}/next_question`.  A successful TTS
URL is appended to the in-memory `audio_files`; no durable save happens in
this handler. -/
def get_next_question (st : Store) (ttsOutcome : Bool) (session_id : String) :
    Except HTTPError Question × Store :=
  match _get_session st session_id with
  | (Option.none, st₁) => (.error ⟨404, "Session not found"⟩, st₁)
  | (some sess, st₁) =>
      if h : sess.current_q_index ≥ sess.questions.length then
        (.error ⟨400, "No more questions"⟩, st₁)
      else
        let idx := sess.current_q_index
        let q := sess.questions.get ⟨idx, by omega⟩
        let audio_url := synthesize_tts ttsOutcome q.text session_id (idx + 1) "question"
        let sess₂ :=
          if audio_url ≠ "" then
            { sess with audio_files := sess.audio_files ++ [audio_url] }
          else sess
        let st₂ : Store := { st₁ with sessions := aset st₁.sessions session_id sess₂ }
        (.ok { id := q.id, text := q.text, audio_url := some audio_url }, st₂)

/-- The handler `POST /session/{session_id}/answer`.  The answer record and
cursor bump are persisted by `_save_session`; the follow-up audio URL is
appended to the in-memory `audio_files` only, after that save. -/
def submit_answer (st : Store) (writeOk : Bool) (llmOutcome : Option String)
    (ttsOutcome : Bool) (session_id : String) (payload : AnswerUpload) :
    Except HTTPError FollowupResponse × Store :=
  match _get_session st session_id with
  | (Option.none, st₁) => (.error ⟨404, "Session not found"⟩, st₁)
  | (some sess, st₁) =>
      match sess.config with
      | Option.none => (.error ⟨400, "Config not set"⟩, st₁)
      | some config =>
          if h : sess.current_q_index ≥ sess.questions.length then
            (.error ⟨400, "No more questions"⟩, st₁)
          else
            let idx := sess.current_q_index
            let q := sess.questions.get ⟨idx, by omega⟩
            let answer_record : AnswerRecord :=
              { question_id := payload.question_id
                question_text := q.text
                transcript := payload.transcript
                voice_features := payload.voice_features }
            let sess₂ := { sess with
              answers := sess.answers ++ [answer_record]
              current_q_index := idx + 1 }
            let st₂ : Store := { st₁ with sessions := aset st₁.sessions session_id sess₂ }
            let st₃ := _save_session writeOk st₂ session_id sess₂
            let style := styleString config.interviewer_style
            let followup_text := generate_followup llmOutcome style q.text payload.transcript
            let audio_url := synthesize_tts ttsOutcome followup_text session_id (idx + 1) "followup"
            let sess₃ :=
              if audio_url ≠ "" then
                { sess₂ with audio_files := sess₂.audio_files ++ [audio_url] }
              else sess₂
            let st₄ : Store := { st₃ with sessions := aset st₃.sessions session_id sess₃ }
            (.ok { followup_text := followup_text, audio_url := some audio_url }, st₄)

/-- The `SessionSummary` value built by `finish_session` from the resolved
config and the session state (`Question(**q)` leaves `audio_url` at its
`None` default). -/
def summaryOf (session_id : String) (config : SessionConfig)
    (sess : SessionState) : SummaryData :=
  { session_id := session_id
    interviewer_style := config.interviewer_style
    feedback_mode := config.feedback_mode
    baseline := sess.baseline
    questions := sess.questions.map
      (fun q => { id := q.id, text := q.text, audio_url := Option.none })
    answers := sess.answers
    survey := sess.survey }

/-- The handler `POST /session/{session_id}/finish`.  `audioUnlink` gives the
file-system outcome of each audio `unlink`, `workUnlinkFails` whether deleting
the working copy raises something other than `FileNotFoundError`, and
`summaryWriteOk` whether the summary write succeeds (an uncaught write failure
surfaces as a 500).  The third component records the attempted audio
deletions. -/
def finish_session (st : Store) (audioUnlink : String → UnlinkOutcome)
    (workUnlinkFails : Bool) (summaryWriteOk : Bool) (session_id : String) :
    Except HTTPError SummaryData × Store × List (String × UnlinkOutcome) :=
  match _get_session st session_id with
  | (Option.none, st₁) => (.error ⟨404, "Session not found"⟩, st₁, [])
  | (some sess, st₁) =>
      match sess.config with
      | Option.none => (.error ⟨400, "Config not set"⟩, st₁, [])
      | some config =>
          let summary : SummaryData := summaryOf session_id config sess
          if summaryWriteOk = false then
            (.error ⟨500, "Internal Server Error"⟩, st₁, [])
          else
            let st₂ : Store := { st₁ with summaries := aset st₁.summaries session_id summary }
            let attempts := deleteAudioFiles audioUnlink sess.audio_files
            let st₃ : Store := { st₂ with sessions := aerase st₂.sessions session_id }
            let st₄ : Store :=
              if workUnlinkFails then st₃
              else { st₃ with workFiles := aerase st₃.workFiles session_id }
            (.ok summary, st₄, attempts)

/-- The handler `POST /session/{session_id}/survey`.  It operates on the
summary file directly; `readOk` and `writeOk` are the outcomes of the file
read and rewrite.  The in-memory session, if still resident, gets the survey
attached as well. -/
def submit_survey (st : Store) (readOk : Bool) (writeOk : Bool)
    (session_id : String) (survey : SurveyResponse) :
    Except HTTPError Unit × Store :=
  match alookup st.summaries session_id with
  | Option.none => (.error ⟨404, "Session summary not found"⟩, st)
  | some data =>
      if readOk = false then (.error ⟨500, "Failed to read summary file"⟩, st)
      else
        let data₂ := { data with survey := some survey }
        if writeOk = false then (.error ⟨500, "Failed to update summary file"⟩, st)
        else
          let st₂ : Store := { st with summaries := aset st.summaries session_id data₂ }
          match alookup st.sessions session_id with
          | some sess =>
              (.ok (), { st₂ with
                sessions := aset st₂.sessions session_id { sess with survey := some survey } })
          | Option.none => (.ok (), st₂)

/-- Dropping the in-memory cache, the simulation of a process restart used by
the testable properties (only durable storage survives). -/
def dropCache (st : Store) : Store :=
  { st with sessions := [] }

/-- The per-session invariant maintained by every handler: the answer list is
exactly as long as the cursor, the question list has exactly 3 entries, and a
session that has accepted at least one answer has its config set. -/
def SessInv (s : SessionState) : Prop :=
  s.answers.length = s.current_q_index ∧
  s.questions.length = 3 ∧
  (0 < s.current_q_index → s.config ≠ Option.none)

/-- The store-wide invariant: every session held in the in-memory cache or as
a working copy satisfies `SessInv`. -/
def StoreInv (st : Store) : Prop :=
  (∀ p ∈ st.sessions, SessInv p.2) ∧ (∀ p ∈ st.workFiles, SessInv p.2)

theorem GENERAL_QUESTIONS_length : GENERAL_QUESTIONS.length = 15 := rfl

theorem pick_three_questions_eq (sample : List String) :
    pick_three_questions sample = sample := by
  unfold pick_three_questions
  rw [GENERAL_QUESTIONS_length]
  norm_num

theorem sessInv_initial (qs : List String) (h3 : qs.length = 3) :
    SessInv (initialSession qs) := by
  refine ⟨rfl, ?_, by simp [initialSession]⟩
  simp [initialSession, List.enumFrom_length, h3]

theorem sessInv_set_config (s : SessionState) (cfg : SessionConfig)
    (h : SessInv s) : SessInv { s with config := some cfg } := by
  obtain ⟨h1, h2, h3⟩ := h
  exact ⟨h1, h2, by simp⟩

theorem sessInv_set_baseline (s : SessionState) (b : VoiceFeatures)
    (h : SessInv s) : SessInv { s with baseline := some b } := by
  obtain ⟨h1, h2, h3⟩ := h
  exact ⟨h1, h2, h3⟩

theorem sessInv_push_audio (s : SessionState) (u : String)
    (h : SessInv s) : SessInv { s with audio_files := s.audio_files ++ [u] } := by
  obtain ⟨h1, h2, h3⟩ := h
  exact ⟨h1, h2, h3⟩

theorem sessInv_push_answer (s : SessionState) (rec : AnswerRecord)
    (cfg : SessionConfig) (hc : s.config = some cfg) (h : SessInv s) :
    SessInv { s with answers := s.answers ++ [rec],
                     current_q_index := s.current_q_index + 1 } := by
  obtain ⟨h1, h2, h3⟩ := h
  refine ⟨?_, h2, ?_⟩
  · simp [h1]
  · intro _
    simp [hc]

theorem sessInv_set_survey (s : SessionState) (sv : SurveyResponse)
    (h : SessInv s) : SessInv { s with survey := some sv } := by
  obtain ⟨h1, h2, h3⟩ := h
  exact ⟨h1, h2, h3⟩

theorem storeInv_set_cache (st : Store) (id : String) (s : SessionState)
    (h : StoreInv st) (hs : SessInv s) :
    StoreInv { st with sessions := aset st.sessions id s } := by
  refine ⟨?_, h.2⟩
  intro p hp
  rcases mem_aset hp with h' | h'
  · subst h'
    exact hs
  · exact h.1 p h'

theorem storeInv_save (writeOk : Bool) (st : Store) (id : String)
    (s : SessionState) (h : StoreInv st) (hs : SessInv s) :
    StoreInv (_save_session writeOk st id s) := by
  unfold _save_session
  split
  · refine ⟨h.1, ?_⟩
    intro p hp
    rcases mem_aset hp with h' | h'
    · subst h'
      exact hs
    · exact h.2 p h'
  · exact h

theorem storeInv_get (st : Store) (id : String) (h : StoreInv st) :
    StoreInv (_get_session st id).2 ∧
    (∀ s, (_get_session st id).1 = some s → SessInv s) := by
  unfold _get_session
  cases hc : alookup st.sessions id with
  | some s =>
    have hs : SessInv s := h.1 _ (alookup_mem hc)
    refine ⟨h, ?_⟩
    intro s' hs'
    simp at hs'
    subst hs'
    exact hs
  | none =>
    cases hw : alookup st.workFiles id with
    | some s =>
      have hs : SessInv s := h.2 _ (alookup_mem hw)
      refine ⟨storeInv_set_cache st id s h hs, ?_⟩
      intro s' hs'
      simp at hs'
      subst hs'
      exact hs
    | none =>
      refine ⟨h, ?_⟩
      intro s hs
      simp at hs

theorem get_session_cache_hit (st : Store) (id : String) (s : SessionState)
    (h : alookup st.sessions id = some s) : _get_session st id = (some s, st) := by
  unfold _get_session
  rw [h]

theorem get_session_reload (st : Store) (id : String) (s : SessionState)
    (hc : alookup st.sessions id = Option.none)
    (hw : alookup st.workFiles id = some s) :
    _get_session st id = (some s, { st with sessions := aset st.sessions id s }) := by
  unfold _get_session
  rw [hc, hw]

theorem get_session_miss (st : Store) (id : String)
    (hc : alookup st.sessions id = Option.none)
    (hw : alookup st.workFiles id = Option.none) :
    _get_session st id = (Option.none, st) := by
  unfold _get_session
  rw [hc, hw]

theorem get_session_none_inv (st : Store) (id : String) (st₁ : Store)
    (h : _get_session st id = (Option.none, st₁)) :
    alookup st.sessions id = Option.none ∧
    alookup st.workFiles id = Option.none ∧ st₁ = st := by
  unfold _get_session at h
  cases hc : alookup st.sessions id with
  | some s =>
    rw [hc] at h
    cases h
  | none =>
    rw [hc] at h
    cases hw : alookup st.workFiles id with
    | some s =>
      rw [hw] at h
      cases h
    | none =>
      rw [hw] at h
      cases h
      exact ⟨rfl, rfl, rfl⟩

theorem get_session_some_inv (st : Store) (id : String) (s : SessionState)
    (st₁ : Store) (h : _get_session st id = (some s, st₁)) :
    (alookup st.sessions id = some s ∧ st₁ = st) ∨
    (alookup st.sessions id = Option.none ∧ alookup st.workFiles id = some s ∧
     st₁ = { st with sessions := aset st.sessions id s }) := by
  unfold _get_session at h
  cases hc : alookup st.sessions id with
  | some s' =>
    rw [hc] at h
    cases h
    exact Or.inl ⟨rfl, rfl⟩
  | none =>
    rw [hc] at h
    cases hw : alookup st.workFiles id with
    | some s' =>
      rw [hw] at h
      cases h
      exact Or.inr ⟨rfl, rfl, rfl⟩
    | none =>
      rw [hw] at h
      cases h

theorem get_session_some_cache (st : Store) (id : String) (s : SessionState)
    (st₁ : Store) (h : _get_session st id = (some s, st₁)) :
    alookup st₁.sessions id = some s ∧ st₁.workFiles = st.workFiles ∧
    st₁.summaries = st.summaries := by
  rcases get_session_some_inv st id s st₁ h with ⟨hc, rfl⟩ | ⟨hc, hw, rfl⟩
  · exact ⟨hc, rfl, rfl⟩
  · exact ⟨alookup_aset_self _ _ _, rfl, rfl⟩

theorem sessInv_ite_audio (c : Prop) [Decidable c] (s : SessionState)
    (u : String) (h : SessInv s) :
    SessInv (if c then { s with audio_files := s.audio_files ++ [u] } else s) := by
  split
  · exact sessInv_push_audio s u h
  · exact h

theorem storeInv_erase_session (st : Store) (id : String) (h : StoreInv st) :
    StoreInv { st with sessions := aerase st.sessions id } :=
  ⟨fun p hp => h.1 p (mem_aerase hp), h.2⟩

theorem storeInv_erase_work (st : Store) (id : String) (h : StoreInv st) :
    StoreInv { st with workFiles := aerase st.workFiles id } :=
  ⟨h.1, fun p hp => h.2 p (mem_aerase hp)⟩

theorem storeInv_set_summary (st : Store) (id : String) (d : SummaryData)
    (h : StoreInv st) : StoreInv { st with summaries := aset st.summaries id d } :=
  ⟨h.1, h.2⟩

theorem storeInv_start (st : Store) (new_id : String) (sample : List String)
    (writeOk : Bool) (c : ConsentRequest) (h3 : sample.length = 3)
    (h : StoreInv st) : StoreInv (start_session st new_id sample writeOk c).2 := by
  unfold start_session
  split
  · exact h
  · have hs : SessInv (initialSession (pick_three_questions sample)) :=
      sessInv_initial _ (by rw [pick_three_questions_eq]; exact h3)
    exact storeInv_save _ _ _ _ (storeInv_set_cache _ _ _ h hs) hs

theorem storeInv_set_config (st : Store) (writeOk : Bool) (id : String)
    (cfg : SessionConfig) (h : StoreInv st) :
    StoreInv (set_config st writeOk id cfg).2 := by
  unfold set_config
  cases hg : _get_session st id with
  | mk os st₁ =>
    have h₁ := storeInv_get st id h
    rw [hg] at h₁
    cases os with
    | none => exact h₁.1
    | some s =>
      have hs := h₁.2 s rfl
      simp only []
      exact storeInv_save _ _ _ _
        (storeInv_set_cache _ _ _ h₁.1 (sessInv_set_config s cfg hs))
        (sessInv_set_config s cfg hs)

theorem storeInv_upload_baseline (st : Store) (writeOk : Bool) (id : String)
    (b : BaselineUpload) (h : StoreInv st) :
    StoreInv (upload_baseline st writeOk id b).2 := by
  unfold upload_baseline
  cases hg : _get_session st id with
  | mk os st₁ =>
    have h₁ := storeInv_get st id h
    rw [hg] at h₁
    cases os with
    | none => exact h₁.1
    | some s =>
      have hs := h₁.2 s rfl
      simp only []
      exact storeInv_save _ _ _ _
        (storeInv_set_cache _ _ _ h₁.1 (sessInv_set_baseline s _ hs))
        (sessInv_set_baseline s _ hs)

theorem storeInv_next_question (st : Store) (tts : Bool) (id : String)
    (h : StoreInv st) : StoreInv (get_next_question st tts id).2 := by
  unfold get_next_question
  cases hg : _get_session st id with
  | mk os st₁ =>
    have h₁ := storeInv_get st id h
    rw [hg] at h₁
    cases os with
    | none => exact h₁.1
    | some s =>
      have hs := h₁.2 s rfl
      simp only []
      split
      · exact h₁.1
      · exact storeInv_set_cache _ _ _ h₁.1 (sessInv_ite_audio _ s _ hs)

theorem storeInv_submit_answer (st : Store) (writeOk : Bool)
    (llm : Option String) (tts : Bool) (id : String) (payload : AnswerUpload)
    (h : StoreInv st) : StoreInv (submit_answer st writeOk llm tts id payload).2 := by
  unfold submit_answer
  cases hg : _get_session st id with
  | mk os st₁ =>
    have h₁ := storeInv_get st id h
    rw [hg] at h₁
    cases os with
    | none => exact h₁.1
    | some s =>
      have hs := h₁.2 s rfl
      simp only []
      cases hcfg : s.config with
      | none => exact h₁.1
      | some cfg =>
        simp only []
        split
        · exact h₁.1
        · rename_i hq
          have hs₂ := sessInv_push_answer s
            { question_id := payload.question_id
              question_text := (s.questions.get ⟨s.current_q_index, by omega⟩).text
              transcript := payload.transcript
              voice_features := payload.voice_features } cfg hcfg hs
          rw [hcfg] at hs₂
          exact storeInv_set_cache _ _ _
            (storeInv_save _ _ _ _ (storeInv_set_cache _ _ _ h₁.1 hs₂) hs₂)
            (sessInv_ite_audio _ _ _ hs₂)

theorem storeInv_finish (st : Store) (audioUnlink : String → UnlinkOutcome)
    (workUnlinkFails : Bool) (summaryWriteOk : Bool) (id : String)
    (h : StoreInv st) :
    StoreInv (finish_session st audioUnlink workUnlinkFails summaryWriteOk id).2.1 := by
  unfold finish_session
  cases hg : _get_session st id with
  | mk os st₁ =>
    have h₁ := storeInv_get st id h
    rw [hg] at h₁
    cases os with
    | none => exact h₁.1
    | some s =>
      simp only []
      cases hcfg : s.config with
      | none => exact h₁.1
      | some cfg =>
        simp only []
        split
        · exact h₁.1
        · split
          · exact ⟨fun p hp => h₁.1.1 p (mem_aerase hp), h₁.1.2⟩
          · exact ⟨fun p hp => h₁.1.1 p (mem_aerase hp),
              fun p hp => h₁.1.2 p (mem_aerase hp)⟩

theorem storeInv_submit_survey (st : Store) (readOk writeOk : Bool)
    (id : String) (sv : SurveyResponse) (h : StoreInv st) :
    StoreInv (submit_survey st readOk writeOk id sv).2 := by
  unfold submit_survey
  cases hd : alookup st.summaries id with
  | none => exact h
  | some d =>
    simp only []
    split
    · exact h
    · split
      · exact h
      · cases hs : alookup st.sessions id with
        | none => exact storeInv_set_summary _ _ _ h
        | some sess =>
          have hinv : SessInv sess := h.1 _ (alookup_mem hs)
          simp only []
          refine ⟨?_, h.2⟩
          intro p hp
          rcases mem_aset hp with h' | h'
          · subst h'
            exact sessInv_set_survey sess sv hinv
          · exact h.1 p h'

/-- One client-driven handler invocation, with arbitrary request data and
arbitrary outcomes of the external effects.  The random question sample
always has 3 elements, since `random.sample(GENERAL_QUESTIONS, k=3)` returns
exactly `k` elements. -/
inductive Step : Store → Store → Prop
  | start (st : Store) (new_id : String) (sample : List String) (writeOk : Bool)
      (c : ConsentRequest) (h3 : sample.length = 3) :
      Step st (start_session st new_id sample writeOk c).2
  | config (st : Store) (writeOk : Bool) (id : String) (cfg : SessionConfig) :
      Step st (set_config st writeOk id cfg).2
  | baseline (st : Store) (writeOk : Bool) (id : String) (b : BaselineUpload) :
      Step st (upload_baseline st writeOk id b).2
  | nextQuestion (st : Store) (tts : Bool) (id : String) :
      Step st (get_next_question st tts id).2
  | answer (st : Store) (writeOk : Bool) (llm : Option String) (tts : Bool)
      (id : String) (payload : AnswerUpload) :
      Step st (submit_answer st writeOk llm tts id payload).2
  | finish (st : Store) (audioUnlink : String → UnlinkOutcome)
      (workUnlinkFails : Bool) (summaryWriteOk : Bool) (id : String) :
      Step st (finish_session st audioUnlink workUnlinkFails summaryWriteOk id).2.1
  | survey (st : Store) (readOk writeOk : Bool) (id : String) (sv : SurveyResponse) :
      Step st (submit_survey st readOk writeOk id sv).2

/-- Stores reachable from process start by any sequence of handler calls. -/
inductive Reachable : Store → Prop
  | init : Reachable emptyStore
  | step {st st' : Store} (h : Reachable st) (hs : Step st st') : Reachable st'

theorem reachable_storeInv {st : Store} (h : Reachable st) : StoreInv st := by
  induction h with
  | init =>
    constructor
    · intro p hp
      simp [emptyStore] at hp
    · intro p hp
      simp [emptyStore] at hp
  | step h hs ih =>
    cases hs with
    | start new_id sample writeOk c h3 => exact storeInv_start _ new_id sample writeOk c h3 ih
    | config writeOk id cfg => exact storeInv_set_config _ writeOk id cfg ih
    | baseline writeOk id b => exact storeInv_upload_baseline _ writeOk id b ih
    | nextQuestion tts id => exact storeInv_next_question _ tts id ih
    | answer writeOk llm tts id payload => exact storeInv_submit_answer _ writeOk llm tts id payload ih
    | finish audioUnlink workUnlinkFails summaryWriteOk id =>
        exact storeInv_finish _ audioUnlink workUnlinkFails summaryWriteOk id ih
    | survey readOk writeOk id sv => exact storeInv_submit_survey _ readOk writeOk id sv ih

/-- The answer record built by `submit_answer` from the payload and the
question text snapshot. -/
def answerRecordOf (payload : AnswerUpload) (qtext : String) : AnswerRecord :=
  { question_id := payload.question_id
    question_text := qtext
    transcript := payload.transcript
    voice_features := payload.voice_features }

theorem save_sessions_eq (writeOk : Bool) (st : Store) (id : String)
    (s : SessionState) : (_save_session writeOk st id s).sessions = st.sessions := by
  unfold _save_session
  split <;> rfl

theorem save_summaries_eq (writeOk : Bool) (st : Store) (id : String)
    (s : SessionState) : (_save_session writeOk st id s).summaries = st.summaries := by
  unfold _save_session
  split <;> rfl

theorem get_next_question_not_found (st : Store) (tts : Bool) (id : String)
    (st₁ : Store) (hget : _get_session st id = (Option.none, st₁)) :
    get_next_question st tts id = (.error ⟨404, "Session not found"⟩, st₁) := by
  unfold get_next_question
  rw [hget]

theorem get_next_question_exhausted (st : Store) (tts : Bool) (id : String)
    (s : SessionState) (st₁ : Store)
    (hget : _get_session st id = (some s, st₁))
    (hq : s.questions.length ≤ s.current_q_index) :
    get_next_question st tts id = (.error ⟨400, "No more questions"⟩, st₁) := by
  unfold get_next_question
  rw [hget]
  simp only []
  rw [dif_pos (by omega)]

theorem get_next_question_ok (st : Store) (tts : Bool) (id : String)
    (s : SessionState) (st₁ : Store)
    (hget : _get_session st id = (some s, st₁))
    (hq : s.current_q_index < s.questions.length) :
    get_next_question st tts id =
      (let q := s.questions.get ⟨s.current_q_index, hq⟩
       let url := synthesize_tts tts q.text id (s.current_q_index + 1) "question"
       let sess₂ := if url ≠ "" then
           { s with audio_files := s.audio_files ++ [url] }
         else s
       (.ok { id := q.id, text := q.text, audio_url := some url },
        { st₁ with sessions := aset st₁.sessions id sess₂ })) := by
  unfold get_next_question
  rw [hget]
  simp only []
  rw [dif_neg (by omega)]

theorem submit_answer_not_found (st : Store) (writeOk : Bool)
    (llm : Option String) (tts : Bool) (id : String) (payload : AnswerUpload)
    (st₁ : Store) (hget : _get_session st id = (Option.none, st₁)) :
    submit_answer st writeOk llm tts id payload =
      (.error ⟨404, "Session not found"⟩, st₁) := by
  unfold submit_answer
  rw [hget]

theorem submit_answer_no_config (st : Store) (writeOk : Bool)
    (llm : Option String) (tts : Bool) (id : String) (payload : AnswerUpload)
    (s : SessionState) (st₁ : Store)
    (hget : _get_session st id = (some s, st₁))
    (hcfg : s.config = Option.none) :
    submit_answer st writeOk llm tts id payload =
      (.error ⟨400, "Config not set"⟩, st₁) := by
  unfold submit_answer
  rw [hget]
  simp only []
  rw [hcfg]

theorem submit_answer_exhausted (st : Store) (writeOk : Bool)
    (llm : Option String) (tts : Bool) (id : String) (payload : AnswerUpload)
    (s : SessionState) (st₁ : Store) (cfg : SessionConfig)
    (hget : _get_session st id = (some s, st₁))
    (hcfg : s.config = some cfg)
    (hq : s.questions.length ≤ s.current_q_index) :
    submit_answer st writeOk llm tts id payload =
      (.error ⟨400, "No more questions"⟩, st₁) := by
  unfold submit_answer
  rw [hget]
  simp only []
  rw [hcfg]
  simp only []
  rw [dif_pos (by omega)]

theorem submit_answer_ok (st : Store) (writeOk : Bool) (llm : Option String)
    (tts : Bool) (id : String) (payload : AnswerUpload)
    (s : SessionState) (st₁ : Store) (cfg : SessionConfig)
    (hget : _get_session st id = (some s, st₁))
    (hcfg : s.config = some cfg)
    (hq : s.current_q_index < s.questions.length) :
    submit_answer st writeOk llm tts id payload =
      (let qtext := (s.questions.get ⟨s.current_q_index, hq⟩).text
       let followup := generate_followup llm (styleString cfg.interviewer_style)
         qtext payload.transcript
       let url := synthesize_tts tts followup id (s.current_q_index + 1) "followup"
       let sess₂ : SessionState := { s with
         answers := s.answers ++ [answerRecordOf payload qtext]
         current_q_index := s.current_q_index + 1 }
       let sess₃ := if url ≠ "" then
           { sess₂ with audio_files := sess₂.audio_files ++ [url] }
         else sess₂
       let st₃ := _save_session writeOk
         { st₁ with sessions := aset st₁.sessions id sess₂ } id sess₂
       (.ok { followup_text := followup, audio_url := some url },
        { st₃ with sessions := aset st₃.sessions id sess₃ })) := by
  unfold submit_answer
  rw [hget]
  simp only []
  rw [hcfg]
  simp only []
  rw [dif_neg (by omega)]
  rfl

theorem submit_answer_ok_inv (st : Store) (writeOk : Bool) (llm : Option String)
    (tts : Bool) (id : String) (payload : AnswerUpload)
    (r : FollowupResponse) (st' : Store)
    (h : submit_answer st writeOk llm tts id payload = (.ok r, st')) :
    ∃ s st₁ cfg, ∃ hq : s.current_q_index < s.questions.length,
      _get_session st id = (some s, st₁) ∧ s.config = some cfg := by
  unfold submit_answer at h
  cases hg : _get_session st id with
  | mk os st₂ =>
    rw [hg] at h
    cases os with
    | none =>
      simp only [] at h
      cases h
    | some s =>
      simp only [] at h
      cases hcfg : s.config with
      | none =>
        rw [hcfg] at h
        simp only [] at h
        cases h
      | some cfg =>
        rw [hcfg] at h
        simp only [] at h
        by_cases hq : s.current_q_index ≥ s.questions.length
        · rw [dif_pos hq] at h
          cases h
        · exact ⟨s, st₂, cfg, by omega, rfl, hcfg⟩

theorem upload_baseline_not_found (st : Store) (writeOk : Bool) (id : String)
    (b : BaselineUpload) (st₁ : Store)
    (hget : _get_session st id = (Option.none, st₁)) :
    upload_baseline st writeOk id b = (.error ⟨404, "Session not found"⟩, st₁) := by
  unfold upload_baseline
  rw [hget]

theorem upload_baseline_ok (st : Store) (writeOk : Bool) (id : String)
    (b : BaselineUpload) (s : SessionState) (st₁ : Store)
    (hget : _get_session st id = (some s, st₁)) :
    upload_baseline st writeOk id b =
      (let sess₂ : SessionState := { s with baseline := some b.voice_features }
       let st₂ : Store := { st₁ with sessions := aset st₁.sessions id sess₂ }
       (.ok (), _save_session writeOk st₂ id sess₂)) := by
  unfold upload_baseline
  rw [hget]

theorem finish_session_not_found (st : Store) (audioUnlink : String → UnlinkOutcome)
    (workUnlinkFails : Bool) (summaryWriteOk : Bool) (id : String) (st₁ : Store)
    (hget : _get_session st id = (Option.none, st₁)) :
    finish_session st audioUnlink workUnlinkFails summaryWriteOk id =
      (.error ⟨404, "Session not found"⟩, st₁, []) := by
  unfold finish_session
  rw [hget]

theorem finish_session_no_config (st : Store) (audioUnlink : String → UnlinkOutcome)
    (workUnlinkFails : Bool) (summaryWriteOk : Bool) (id : String)
    (s : SessionState) (st₁ : Store)
    (hget : _get_session st id = (some s, st₁))
    (hcfg : s.config = Option.none) :
    finish_session st audioUnlink workUnlinkFails summaryWriteOk id =
      (.error ⟨400, "Config not set"⟩, st₁, []) := by
  unfold finish_session
  rw [hget]
  simp only []
  rw [hcfg]

theorem finish_session_ok (st : Store) (audioUnlink : String → UnlinkOutcome)
    (workUnlinkFails : Bool) (id : String)
    (s : SessionState) (st₁ : Store) (cfg : SessionConfig)
    (hget : _get_session st id = (some s, st₁))
    (hcfg : s.config = some cfg) :
    finish_session st audioUnlink workUnlinkFails true id =
      (.ok (summaryOf id cfg s),
       (let st₂ : Store := { st₁ with summaries := aset st₁.summaries id (summaryOf id cfg s) }
        let st₃ : Store := { st₂ with sessions := aerase st₂.sessions id }
        if workUnlinkFails then st₃
        else { st₃ with workFiles := aerase st₃.workFiles id }),
       deleteAudioFiles audioUnlink s.audio_files) := by
  unfold finish_session
  rw [hget]
  simp only []
  rw [hcfg]
  simp only []
  rfl

theorem submit_survey_not_found (st : Store) (readOk writeOk : Bool)
    (id : String) (sv : SurveyResponse)
    (hd : alookup st.summaries id = Option.none) :
    submit_survey st readOk writeOk id sv =
      (.error ⟨404, "Session summary not found"⟩, st) := by
  unfold submit_survey
  rw [hd]

theorem submit_survey_ok (st : Store) (id : String) (sv : SurveyResponse)
    (data : SummaryData) (hd : alookup st.summaries id = some data) :
    (submit_survey st true true id sv).1 = .ok () ∧
    alookup (submit_survey st true true id sv).2.summaries id =
      some { data with survey := some sv } ∧
    (∀ id', id' ≠ id →
      alookup (submit_survey st true true id sv).2.summaries id' =
        alookup st.summaries id') ∧
    (submit_survey st true true id sv).2.workFiles = st.workFiles := by
  unfold submit_survey
  rw [hd]
  simp only []
  cases hs : alookup st.sessions id with
  | none =>
    refine ⟨rfl, ?_, ?_, rfl⟩
    · exact alookup_aset_self _ _ _
    · intro id' hne
      exact alookup_aset_ne _ _ _ _ (fun h => hne h.symm)
  | some sess =>
    refine ⟨rfl, ?_, ?_, rfl⟩
    · exact alookup_aset_self _ _ _
    · intro id' hne
      exact alookup_aset_ne _ _ _ _ (fun h => hne h.symm)

theorem ite_audio_answers (c : Prop) [Decidable c] (s : SessionState) (u : String) :
    (if c then { s with audio_files := s.audio_files ++ [u] } else s).answers
      = s.answers := by
  split <;> rfl

theorem ite_audio_index (c : Prop) [Decidable c] (s : SessionState) (u : String) :
    (if c then { s with audio_files := s.audio_files ++ [u] } else s).current_q_index
      = s.current_q_index := by
  split <;> rfl

theorem start_session_ok (st : Store) (new_id : String) (sample : List String)
    (writeOk : Bool) (c : ConsentRequest) (hc : c.accepted = true) :
    start_session st new_id sample writeOk c =
      (let sess := initialSession (pick_three_questions sample)
       let st₁ : Store := { st with sessions := aset st.sessions new_id sess }
       (.ok new_id, _save_session writeOk st₁ new_id sess)) := by
  unfold start_session
  rw [hc]
  rw [if_neg (by decide)]

theorem deleteAudioFiles_mem (f : String → UnlinkOutcome) (urls : List String)
    (u : String) (hu : u ∈ urls) (hne : u ≠ "") :
    (audioFileName u, f (audioFileName u)) ∈ deleteAudioFiles f urls := by
  induction urls with
  | nil => cases hu
  | cons v rest ih =>
    rcases List.mem_cons.mp hu with h | h
    · subst h
      simp [deleteAudioFiles, hne]
    · by_cases hv : v = ""
      · simpa [deleteAudioFiles, hv] using ih h
      · simp [deleteAudioFiles, hv]
        exact Or.inr (ih h)

theorem get_session_workFiles (st : Store) (id : String) :
    (_get_session st id).2.workFiles = st.workFiles := by
  unfold _get_session
  cases alookup st.sessions id
  · cases alookup st.workFiles id <;> rfl
  · rfl

theorem synthesize_tts_failure (text : String) (session_id : String)
    (q_index : Nat) (kind : String) :
    synthesize_tts false text session_id q_index kind = "" := by
  unfold synthesize_tts
  by_cases h : pyStrip text = "" <;> simp [h]

theorem generate_followup_failure_ne (style question : String)
    (transcript : Option String) :
    generate_followup Option.none style question transcript ≠ "" := by
  unfold generate_followup
  simp only []
  split
  · decide
  · decide

/-- A concrete voice-feature record for the closed witness scenarios. -/
def vf0 : VoiceFeatures :=
  { nervousness_score := 1, avg_rms := 2, silence_ratio := 3,
    intensity_variance := 4, speech_rate := 5, filler_count := 6,
    repetition_count := 1, duration_sec := 30 }

/-- A concrete 3-question random sample for the closed witness scenarios. -/
def sampleQs : List String := ["Q one?", "Q two?", "Q three?"]

/-- A concrete configuration for the closed witness scenarios. -/
def cfg0 : SessionConfig :=
  { interviewer_style := .neutral, feedback_mode := .real }

/-- A concrete answer payload for the closed witness scenarios. -/
def payload0 : AnswerUpload :=
  { question_id := 1, transcript := some "I led a project", voice_features := vf0 }

/-- Store after `start_session` with consent accepted. -/
def store1 : Store := (start_session emptyStore "s1" sampleQs true ⟨true⟩).2

/-- Store after `set_config`. -/
def store2 : Store := (set_config store1 true "s1" cfg0).2

/-- Store after one accepted answer (TTS failing). -/
def store3 : Store := (submit_answer store2 true (some "Good.") false "s1" payload0).2

/-- Store after one accepted answer with the TTS call succeeding. -/
def store3t : Store := (submit_answer store2 true (some "Good.") true "s1" payload0).2

/-- Store after two accepted answers. -/
def store4 : Store := (submit_answer store3 true (some "Good.") false "s1" payload0).2

/-- Store after three accepted answers (cursor exhausted). -/
def store5 : Store := (submit_answer store4 true (some "Good.") false "s1" payload0).2

/-- The freshly started session of the scenario. -/
def sess0 : SessionState :=
  { consent := true
    config := Option.none
    baseline := Option.none
    questions := [{ id := 1, text := "Q one?" }, { id := 2, text := "Q two?" },
                  { id := 3, text := "Q three?" }]
    answers := []
    current_q_index := 0
    audio_files := []
    survey := Option.none }

/-- The scenario session after `set_config`. -/
def sess2 : SessionState := { sess0 with config := some cfg0 }

/-- The scenario session after one accepted answer (TTS failing). -/
def sess3 : SessionState :=
  { sess2 with answers := [answerRecordOf payload0 "Q one?"], current_q_index := 1 }

/-- The scenario session after one accepted answer with TTS succeeding. -/
def sess3t : SessionState :=
  { sess3 with audio_files := ["/audio/s1_q1_followup.mp3"] }

/-- The scenario session after three accepted answers. -/
def sess5 : SessionState :=
  { sess2 with
    answers := [answerRecordOf payload0 "Q one?", answerRecordOf payload0 "Q two?",
                answerRecordOf payload0 "Q three?"]
    current_q_index := 3 }

theorem reachable_store5 : Reachable store5 :=
  Reachable.step (Reachable.step (Reachable.step (Reachable.step (Reachable.step
    Reachable.init
    (Step.start emptyStore "s1" sampleQs true ⟨true⟩ rfl))
    (Step.config store1 true "s1" cfg0))
    (Step.answer store2 true (some "Good.") false "s1" payload0))
    (Step.answer store3 true (some "Good.") false "s1" payload0))
    (Step.answer store4 true (some "Good.") false "s1" payload0)

/-- Decidable equality of handler results, for evaluating the closed
scenarios. -/
instance exceptDecEq {ε α : Type} [DecidableEq ε] [DecidableEq α] :
    DecidableEq (Except ε α) := fun a b =>
  match a, b with
  | .error e₁, .error e₂ =>
      if h : e₁ = e₂ then isTrue (by rw [h])
      else isFalse (by intro hx; cases hx; exact h rfl)
  | .error _, .ok _ => isFalse (by intro hx; cases hx)
  | .ok _, .error _ => isFalse (by intro hx; cases hx)
  | .ok a₁, .ok a₂ =>
      if h : a₁ = a₂ then isTrue (by rw [h])
      else isFalse (by intro hx; cases hx; exact h rfl)

theorem get_store1 : _get_session store1 "s1" = (some sess0, store1) := by decide

theorem get_store2 : _get_session store2 "s1" = (some sess2, store2) := by decide

theorem get_store3t : _get_session store3t "s1" = (some sess3t, store3t) := by decide

theorem get_store5 : _get_session store5 "s1" = (some sess5, store5) := by decide

/-- C1 counterexample: with consent accepted and the initial durable write of
the working copy failing, `start_session` still returns `ok` with the session
id (and no working copy was written) — the create operation does not fail and
does return a session identifier. -/
theorem start_persist_failure_counterexample :
    (start_session emptyStore "sid-1" sampleQs false ⟨true⟩).1 = .ok "sid-1" ∧
    (start_session emptyStore "sid-1" sampleQs false ⟨true⟩).2.workFiles = [] := by
  exact ⟨rfl, rfl⟩

/-- C1 (amended): for every consent-accepted start request, the operation
returns `ok` with the generated session id whatever the outcome of the initial
durable write; the fresh session is stored in the in-memory cache, and when
the write failed no working copy was produced — the failure is logged, not
propagated, and the in-memory state stays authoritative. -/
theorem start_returns_id_despite_persist_failure (st : Store) (new_id : String)
    (sample : List String) (writeOk : Bool) (c : ConsentRequest)
    (hc : c.accepted = true) :
    (start_session st new_id sample writeOk c).1 = .ok new_id ∧
    alookup (start_session st new_id sample writeOk c).2.sessions new_id =
      some (initialSession (pick_three_questions sample)) ∧
    (writeOk = false →
      (start_session st new_id sample writeOk c).2.workFiles = st.workFiles) := by
  rw [start_session_ok st new_id sample writeOk c hc]
  refine ⟨rfl, ?_, ?_⟩
  · simp only []
    rw [save_sessions_eq]
    exact alookup_aset_self _ _ _
  · intro hw
    subst hw
    rfl

/-- Closed witness for the amended C1. -/
theorem start_returns_id_despite_persist_failure_witness :
    (start_session emptyStore "sid-2" sampleQs false ⟨true⟩).1 = .ok "sid-2" ∧
    alookup (start_session emptyStore "sid-2" sampleQs false ⟨true⟩).2.sessions "sid-2" =
      some (initialSession (pick_three_questions sampleQs)) ∧
    (start_session emptyStore "sid-2" sampleQs false ⟨true⟩).2.workFiles =
      emptyStore.workFiles :=
  ⟨(start_returns_id_despite_persist_failure emptyStore "sid-2" sampleQs false ⟨true⟩ rfl).1,
   (start_returns_id_despite_persist_failure emptyStore "sid-2" sampleQs false ⟨true⟩ rfl).2.1,
   (start_returns_id_despite_persist_failure emptyStore "sid-2" sampleQs false ⟨true⟩ rfl).2.2 rfl⟩

/-- C2: in every reachable store every session (in-memory or working copy)
satisfies `answers.length = current_q_index`; a consent-accepted
`start_session` caches a fresh session with empty `answers` and cursor 0; and
every accepted `submit_answer` appends exactly one answer record and
increments the cursor by exactly one (never decrementing it). -/
theorem answers_length_matches_cursor (st : Store) (h : Reachable st) :
    (∀ p ∈ st.sessions, p.2.answers.length = p.2.current_q_index) ∧
    (∀ p ∈ st.workFiles, p.2.answers.length = p.2.current_q_index) ∧
    (∀ new_id sample writeOk,
      alookup (start_session st new_id sample writeOk ⟨true⟩).2.sessions new_id =
        some (initialSession (pick_three_questions sample)) ∧
      (initialSession (pick_three_questions sample)).answers = [] ∧
      (initialSession (pick_three_questions sample)).current_q_index = 0) ∧
    (∀ writeOk llm tts id payload r st',
      submit_answer st writeOk llm tts id payload = (.ok r, st') →
      ∃ s st₁, _get_session st id = (some s, st₁) ∧
        ∃ s', alookup st'.sessions id = some s' ∧
          s'.current_q_index = s.current_q_index + 1 ∧
          ∃ rec, s'.answers = s.answers ++ [rec]) := by
  have hinv := reachable_storeInv h
  refine ⟨fun p hp => (hinv.1 p hp).1, fun p hp => (hinv.2 p hp).1, ?_, ?_⟩
  · intro new_id sample writeOk
    rw [start_session_ok st new_id sample writeOk ⟨true⟩ rfl]
    refine ⟨?_, rfl, rfl⟩
    simp only []
    rw [save_sessions_eq]
    exact alookup_aset_self _ _ _
  · intro writeOk llm tts id payload r st' hsub
    obtain ⟨s, st₁, cfg, hq, hget, hcfg⟩ := submit_answer_ok_inv _ _ _ _ _ _ _ _ hsub
    have heq := (submit_answer_ok st writeOk llm tts id payload s st₁ cfg hget hcfg hq).symm.trans hsub
    have hst' : _ = st' := congrArg Prod.snd heq
    refine ⟨s, st₁, hget, ?_⟩
    rw [← hst']
    refine ⟨_, alookup_aset_self _ _ _, ?_, ?_⟩
    · exact ite_audio_index _ _ _
    · exact ⟨_, ite_audio_answers _ _ _⟩

/-- Closed witness for C2 at the three-answer scenario store. -/
theorem answers_length_matches_cursor_witness :
    sess5.answers.length = sess5.current_q_index ∧
    (initialSession (pick_three_questions sampleQs)).answers = [] ∧
    (initialSession (pick_three_questions sampleQs)).current_q_index = 0 :=
  ⟨(answers_length_matches_cursor store5 reachable_store5).1 ("s1", sess5) (by decide),
   ((answers_length_matches_cursor store5 reachable_store5).2.2.1 "s9" sampleQs true).2.1,
   ((answers_length_matches_cursor store5 reachable_store5).2.2.1 "s9" sampleQs true).2.2⟩

/-- C3: for every reachable store and every existing session whose cursor is
3 or more, both `get_next_question` and `submit_answer` are rejected with the
sequence-exhausted error (400 "No more questions") whatever the prior
configuration, and no question or state change is produced. -/
theorem exhausted_sequence_rejected (st : Store) (h : Reachable st)
    (id : String) (s : SessionState) (st₁ : Store)
    (hget : _get_session st id = (some s, st₁))
    (hidx : 3 ≤ s.current_q_index) :
    (∀ tts, get_next_question st tts id =
      (.error ⟨400, "No more questions"⟩, st₁)) ∧
    (∀ writeOk llm tts payload,
      submit_answer st writeOk llm tts id payload =
        (.error ⟨400, "No more questions"⟩, st₁)) := by
  have hinv : SessInv s :=
    (storeInv_get st id (reachable_storeInv h)).2 s (by rw [hget])
  have hq : s.questions.length ≤ s.current_q_index := by
    have h3 := hinv.2.1
    omega
  constructor
  · intro tts
    exact get_next_question_exhausted st tts id s st₁ hget hq
  · intro writeOk llm tts payload
    cases hcfg : s.config with
    | none => exact absurd hcfg (hinv.2.2 (by omega))
    | some cfg =>
      exact submit_answer_exhausted st writeOk llm tts id payload s st₁ cfg hget hcfg hq

/-- Closed witness for C3 at the exhausted scenario store. -/
theorem exhausted_sequence_rejected_witness :
    get_next_question store5 false "s1" =
      (.error ⟨400, "No more questions"⟩, store5) ∧
    submit_answer store5 true (some "Good.") false "s1" payload0 =
      (.error ⟨400, "No more questions"⟩, store5) :=
  ⟨(exhausted_sequence_rejected store5 reachable_store5 "s1" sess5 store5
      get_store5 (by decide)).1 false,
   (exhausted_sequence_rejected store5 reachable_store5 "s1" sess5 store5
      get_store5 (by decide)).2 true (some "Good.") false payload0⟩

/-- C4: for every existing session whose config is unset, `submit_answer` and
`finish_session` are rejected with the precondition error (400 "Config not
set") regardless of the stored baseline, while `upload_baseline` itself
succeeds without config being set. -/
theorem config_precondition_enforced (st : Store) (id : String)
    (s : SessionState) (st₁ : Store)
    (hget : _get_session st id = (some s, st₁))
    (hcfg : s.config = Option.none) :
    (∀ writeOk llm tts payload,
      submit_answer st writeOk llm tts id payload =
        (.error ⟨400, "Config not set"⟩, st₁)) ∧
    (∀ audioUnlink workUnlinkFails summaryWriteOk,
      finish_session st audioUnlink workUnlinkFails summaryWriteOk id =
        (.error ⟨400, "Config not set"⟩, st₁, [])) ∧
    (∀ writeOk b, (upload_baseline st writeOk id b).1 = .ok ()) := by
  refine ⟨?_, ?_, ?_⟩
  · intro writeOk llm tts payload
    exact submit_answer_no_config st writeOk llm tts id payload s st₁ hget hcfg
  · intro audioUnlink w sOk
    exact finish_session_no_config st audioUnlink w sOk id s st₁ hget hcfg
  · intro writeOk b
    rw [upload_baseline_ok st writeOk id b s st₁ hget]

/-- Closed witness for C4 at the unconfigured scenario store. -/
theorem config_precondition_enforced_witness :
    submit_answer store1 true (some "Good.") false "s1" payload0 =
      (.error ⟨400, "Config not set"⟩, store1) ∧
    finish_session store1 (fun _ => UnlinkOutcome.ok) false true "s1" =
      (.error ⟨400, "Config not set"⟩, store1, []) ∧
    (upload_baseline store1 true "s1" ⟨vf0⟩).1 = .ok () :=
  ⟨(config_precondition_enforced store1 "s1" sess0 store1 get_store1 rfl).1
      true (some "Good.") false payload0,
   (config_precondition_enforced store1 "s1" sess0 store1 get_store1 rfl).2.1
      (fun _ => UnlinkOutcome.ok) false true,
   (config_precondition_enforced store1 "s1" sess0 store1 get_store1 rfl).2.2
      true ⟨vf0⟩⟩

/-- C5: after an accepted, successfully persisted answer submission, dropping
the in-memory cache and calling `_get_session` reloads the session from the
durable working copy, repopulates the cache, and returns a state with exactly
the same `answers` and `current_q_index` as the cached state before the drop;
and `_get_session` returns not-found only when neither a cache entry nor a
working copy exists. -/
theorem crash_recovery_preserves_answers (st : Store) (id : String) :
    (∀ llm tts payload r st',
      submit_answer st true llm tts id payload = (.ok r, st') →
      ∀ s', alookup st'.sessions id = some s' →
      (s'.answers.length = 1 ∨ s'.answers.length = 2) →
      ∃ sr st'', _get_session (dropCache st') id = (some sr, st'') ∧
        sr.answers = s'.answers ∧
        sr.current_q_index = s'.current_q_index ∧
        alookup st''.sessions id = some sr) ∧
    (∀ st₁, _get_session st id = (Option.none, st₁) →
      alookup st.sessions id = Option.none ∧
      alookup st.workFiles id = Option.none) := by
  constructor
  · intro llm tts payload r st' hsub s' hs' hlen
    obtain ⟨s, st₁, cfg, hq, hget, hcfg⟩ := submit_answer_ok_inv _ _ _ _ _ _ _ _ hsub
    have heq := (submit_answer_ok st true llm tts id payload s st₁ cfg hget hcfg hq).symm.trans hsub
    have hst' : _ = st' := congrArg Prod.snd heq
    rw [← hst'] at hs' ⊢
    simp only [] at hs'
    rw [alookup_aset_self] at hs'
    obtain rfl := Option.some.inj hs'
    refine ⟨_, _, get_session_reload _ _ _ rfl (alookup_aset_self _ _ _), ?_, ?_, ?_⟩
    · exact (ite_audio_answers _ _ _).symm
    · exact (ite_audio_index _ _ _).symm
    · exact alookup_aset_self _ _ _
  · intro st₁ hnone
    obtain ⟨hc, hw, _⟩ := get_session_none_inv st id st₁ hnone
    exact ⟨hc, hw⟩

/-- Closed witness for C5 at the one-answer scenario store. -/
theorem crash_recovery_preserves_answers_witness :
    (∃ sr st'', _get_session (dropCache store3) "s1" = (some sr, st'') ∧
      sr.answers = sess3.answers ∧
      sr.current_q_index = sess3.current_q_index ∧
      alookup st''.sessions "s1" = some sr) ∧
    (alookup emptyStore.sessions "s1" = Option.none ∧
     alookup emptyStore.workFiles "s1" = Option.none) :=
  ⟨(crash_recovery_preserves_answers store2 "s1").1 (some "Good.") false payload0
      { followup_text := "Good.", audio_url := some "" } store3 (by decide)
      sess3 (by decide) (by decide),
   (crash_recovery_preserves_answers emptyStore "s1").2 emptyStore (by decide)⟩

/-- C6: for every existing configured session, `finish_session` attempts to
delete every non-empty audio reference in the session's `audio_files` (each
derived file name appears in the deletion log together with the outcome the
file system gave), and whatever each per-file outcome is — success, missing
file, or any other error — and even if deleting the working copy fails, the
operation still returns the Summary and removes the session from the
in-memory cache. -/
theorem finish_cleanup_best_effort (st : Store) (id : String)
    (s : SessionState) (st₁ : Store) (cfg : SessionConfig)
    (hget : _get_session st id = (some s, st₁))
    (hcfg : s.config = some cfg) :
    ∀ audioUnlink workUnlinkFails,
      (finish_session st audioUnlink workUnlinkFails true id).1 =
        .ok (summaryOf id cfg s) ∧
      (∀ u ∈ s.audio_files, u ≠ "" →
        (audioFileName u, audioUnlink (audioFileName u)) ∈
          (finish_session st audioUnlink workUnlinkFails true id).2.2) ∧
      alookup (finish_session st audioUnlink workUnlinkFails true id).2.1.sessions id =
        Option.none := by
  intro audioUnlink workUnlinkFails
  rw [finish_session_ok st audioUnlink workUnlinkFails id s st₁ cfg hget hcfg]
  refine ⟨rfl, ?_, ?_⟩
  · intro u hu hne
    exact deleteAudioFiles_mem audioUnlink s.audio_files u hu hne
  · cases workUnlinkFails <;> exact alookup_aerase_self _ _

/-- Closed witness for C6: a finish whose audio deletion reports a missing
file and whose working-copy deletion errors still returns the Summary. -/
theorem finish_cleanup_best_effort_witness :
    (finish_session store3t (fun _ => UnlinkOutcome.missing) true true "s1").1 =
      .ok (summaryOf "s1" cfg0 sess3t) ∧
    (audioFileName "/audio/s1_q1_followup.mp3", UnlinkOutcome.missing) ∈
      (finish_session store3t (fun _ => UnlinkOutcome.missing) true true "s1").2.2 ∧
    alookup (finish_session store3t (fun _ => UnlinkOutcome.missing) true true
      "s1").2.1.sessions "s1" = Option.none :=
  ⟨(finish_cleanup_best_effort store3t "s1" sess3t store3t cfg0 get_store3t rfl
      (fun _ => UnlinkOutcome.missing) true).1,
   (finish_cleanup_best_effort store3t "s1" sess3t store3t cfg0 get_store3t rfl
      (fun _ => UnlinkOutcome.missing) true).2.1
      "/audio/s1_q1_followup.mp3" (by decide) (by decide),
   (finish_cleanup_best_effort store3t "s1" sess3t store3t cfg0 get_store3t rfl
      (fun _ => UnlinkOutcome.missing) true).2.2⟩

/-- C7: if the durable Summary file for a session id exists, `submit_survey`
succeeds — no in-memory or working-copy session is required — and replaces
only the `survey` field of that Summary, leaving the other summaries and all
working copies unchanged; if no Summary file exists it fails with 404
not-found and leaves the store unchanged. -/
theorem survey_updates_summary_only (st : Store) (id : String) (sv : SurveyResponse) :
    (∀ data, alookup st.summaries id = some data →
      (submit_survey st true true id sv).1 = .ok () ∧
      alookup (submit_survey st true true id sv).2.summaries id =
        some { data with survey := some sv } ∧
      (∀ id', id' ≠ id →
        alookup (submit_survey st true true id sv).2.summaries id' =
          alookup st.summaries id') ∧
      (submit_survey st true true id sv).2.workFiles = st.workFiles) ∧
    (alookup st.summaries id = Option.none →
      ∀ readOk writeOk,
        submit_survey st readOk writeOk id sv =
          (.error ⟨404, "Session summary not found"⟩, st)) := by
  constructor
  · intro data hd
    exact submit_survey_ok st id sv data hd
  · intro hd readOk writeOk
    exact submit_survey_not_found st readOk writeOk id sv hd

/-- A concrete durable Summary for the C7 witness. -/
def sum0 : SummaryData :=
  { session_id := "s1"
    interviewer_style := .neutral
    feedback_mode := .real
    baseline := Option.none
    questions := [{ id := 1, text := "Q one?", audio_url := Option.none }]
    answers := [answerRecordOf payload0 "Q one?"]
    survey := Option.none }

/-- A store holding only the Summary file — no in-memory or working-copy
session exists. -/
def storeS : Store :=
  { sessions := [], workFiles := [], summaries := [("s1", sum0)] }

/-- A concrete survey response for the C7 witness. -/
def sv0 : SurveyResponse :=
  { q1 := 5, q2 := 4, q3 := 5, q4 := 3, q5 := 5, q6 := 4, q7 := 5, q8 := 4,
    q9 := 5, q10_text := some "great" }

/-- Closed witness for C7: survey submission against a bare Summary file. -/
theorem survey_updates_summary_only_witness :
    (submit_survey storeS true true "s1" sv0).1 = .ok () ∧
    alookup (submit_survey storeS true true "s1" sv0).2.summaries "s1" =
      some { sum0 with survey := some sv0 } ∧
    alookup (submit_survey storeS true true "s1" sv0).2.summaries "s2" =
      alookup storeS.summaries "s2" ∧
    (submit_survey storeS true true "s1" sv0).2.workFiles = storeS.workFiles ∧
    submit_survey emptyStore true true "s1" sv0 =
      (.error ⟨404, "Session summary not found"⟩, emptyStore) :=
  ⟨((survey_updates_summary_only storeS "s1" sv0).1 sum0 rfl).1,
   ((survey_updates_summary_only storeS "s1" sv0).1 sum0 rfl).2.1,
   ((survey_updates_summary_only storeS "s1" sv0).1 sum0 rfl).2.2.1 "s2" (by decide),
   ((survey_updates_summary_only storeS "s1" sv0).1 sum0 rfl).2.2.2,
   (survey_updates_summary_only emptyStore "s1" sv0).2 rfl true true⟩

/-- C8: collaborator failures never propagate into the session flow:
`generate_followup` is total and on a failed chat call returns the
deterministic style-dependent fallback sentence; `synthesize_tts` returns the
empty string instead of raising when synthesis fails; and with both
collaborators failing, `get_next_question` and `submit_answer` still complete
with `ok`, an empty audio reference, and (for answers) a non-empty fallback
feedback text. -/
theorem collaborator_failures_degrade :
    (∀ style question transcript,
      generate_followup Option.none style question transcript =
        (if style = "neutral" then NEUTRAL_FALLBACK else CHALLENGING_FALLBACK)) ∧
    (∀ text session_id q_index kind,
      synthesize_tts false text session_id q_index kind = "") ∧
    (∀ st id s st₁, _get_session st id = (some s, st₁) →
      ∀ hq : s.current_q_index < s.questions.length,
      (get_next_question st false id).1 =
        .ok { id := (s.questions.get ⟨s.current_q_index, hq⟩).id,
              text := (s.questions.get ⟨s.current_q_index, hq⟩).text,
              audio_url := some "" }) ∧
    (∀ st writeOk id s st₁ cfg payload,
      _get_session st id = (some s, st₁) → s.config = some cfg →
      ∀ hq : s.current_q_index < s.questions.length,
      (submit_answer st writeOk Option.none false id payload).1 =
        .ok { followup_text :=
                generate_followup Option.none (styleString cfg.interviewer_style)
                  (s.questions.get ⟨s.current_q_index, hq⟩).text payload.transcript,
              audio_url := some "" } ∧
      generate_followup Option.none (styleString cfg.interviewer_style)
        (s.questions.get ⟨s.current_q_index, hq⟩).text payload.transcript ≠ "") := by
  refine ⟨?_, ?_, ?_, ?_⟩
  · intro style question transcript
    rfl
  · exact synthesize_tts_failure
  · intro st id s st₁ hget hq
    rw [get_next_question_ok st false id s st₁ hget hq]
    simp only []
    rw [synthesize_tts_failure]
  · intro st writeOk id s st₁ cfg payload hget hcfg hq
    constructor
    · rw [submit_answer_ok st writeOk Option.none false id payload s st₁ cfg hget hcfg hq]
      simp only []
      rw [synthesize_tts_failure]
    · exact generate_followup_failure_ne _ _ _

/-- Closed witness for C8: both collaborators failing on the configured
scenario store still yields ok results with empty audio. -/
theorem collaborator_failures_degrade_witness :
    generate_followup Option.none "neutral" "Q one?" (some "I led a project") =
      NEUTRAL_FALLBACK ∧
    synthesize_tts false "Q one?" "s1" 1 "question" = "" ∧
    (get_next_question store2 false "s1").1 =
      .ok { id := 1, text := "Q one?", audio_url := some "" } ∧
    (submit_answer store2 true Option.none false "s1" payload0).1 =
      .ok { followup_text := NEUTRAL_FALLBACK, audio_url := some "" } ∧
    NEUTRAL_FALLBACK ≠ "" :=
  ⟨(collaborator_failures_degrade.1 "neutral" "Q one?" (some "I led a project")).trans
      (by decide),
   collaborator_failures_degrade.2.1 "Q one?" "s1" 1 "question",
   (collaborator_failures_degrade.2.2.1 store2 "s1" sess2 store2 get_store2
      (by decide)).trans (by decide),
   ((collaborator_failures_degrade.2.2.2 store2 true "s1" sess2 store2 cfg0 payload0
      get_store2 rfl (by decide)).1).trans (by decide),
   by decide⟩

/-- C9: an accepted `submit_answer` stores the payload's `question_id`
verbatim in the new answer record, without checking it against the current
question, while the record's `question_text` snapshot is always the text of
the question at `current_q_index`; the cached session after the call ends
with exactly that record, so a record can carry a `question_id` that does not
correspond to its `question_text`. -/
theorem question_id_stored_verbatim (st : Store) (id : String)
    (s : SessionState) (st₁ : Store) (cfg : SessionConfig)
    (hget : _get_session st id = (some s, st₁)) (hcfg : s.config = some cfg)
    (hq : s.current_q_index < s.questions.length)
    (writeOk : Bool) (llm : Option String) (tts : Bool) (payload : AnswerUpload) :
    ∃ r st', submit_answer st writeOk llm tts id payload = (.ok r, st') ∧
      ∃ s', alookup st'.sessions id = some s' ∧
        s'.answers = s.answers ++
          [answerRecordOf payload (s.questions.get ⟨s.current_q_index, hq⟩).text] ∧
        (answerRecordOf payload (s.questions.get ⟨s.current_q_index, hq⟩).text).question_id
          = payload.question_id ∧
        (answerRecordOf payload (s.questions.get ⟨s.current_q_index, hq⟩).text).question_text
          = (s.questions.get ⟨s.current_q_index, hq⟩).text := by
  rw [submit_answer_ok st writeOk llm tts id payload s st₁ cfg hget hcfg hq]
  exact ⟨_, _, rfl, _, alookup_aset_self _ _ _, ite_audio_answers _ _ _, rfl, rfl⟩

/-- A payload whose `question_id` does not match the current question. -/
def payload9 : AnswerUpload :=
  { question_id := 99, transcript := some "t", voice_features := vf0 }

/-- Closed witness for C9: submitting with `question_id` 99 while the current
question has id 1 stores 99 verbatim next to the id-1 question text. -/
theorem question_id_stored_verbatim_witness :
    (∃ r st', submit_answer store2 true (some "Good.") false "s1" payload9 =
        (.ok r, st') ∧
      ∃ s', alookup st'.sessions "s1" = some s' ∧
        s'.answers = sess2.answers ++
          [answerRecordOf payload9
            (sess2.questions.get ⟨sess2.current_q_index, by decide⟩).text] ∧
        (answerRecordOf payload9
          (sess2.questions.get ⟨sess2.current_q_index, by decide⟩).text).question_id
          = payload9.question_id ∧
        (answerRecordOf payload9
          (sess2.questions.get ⟨sess2.current_q_index, by decide⟩).text).question_text
          = (sess2.questions.get ⟨sess2.current_q_index, by decide⟩).text) ∧
    (answerRecordOf payload9 "Q one?").question_id ≠
      (sess2.questions.get ⟨sess2.current_q_index, by decide⟩).id :=
  ⟨question_id_stored_verbatim store2 "s1" sess2 store2 cfg0 get_store2 rfl
      (by decide) true (some "Good.") false payload9,
   by decide⟩

/-- C10: audio references are never in the durable snapshot at the time they
are appended: `get_next_question` never writes the working copy at all, and
an accepted `submit_answer` persists the session before appending the
follow-up audio reference, so the working copy keeps the pre-call
`audio_files` while only the cache carries the new reference, and a session
recovered from the working copy after a cache drop is missing it. -/
theorem audio_refs_not_in_snapshot :
    (∀ st tts id, (get_next_question st tts id).2.workFiles = st.workFiles) ∧
    (∀ st llm tts id payload r st',
      submit_answer st true llm tts id payload = (.ok r, st') →
      ∃ s st₁, _get_session st id = (some s, st₁) ∧
        (∃ w, alookup st'.workFiles id = some w ∧ w.audio_files = s.audio_files) ∧
        (∀ u, r.audio_url = some u → u ≠ "" →
          ∃ sc, alookup st'.sessions id = some sc ∧
            sc.audio_files = s.audio_files ++ [u]) ∧
        (∃ sr st'', _get_session (dropCache st') id = (some sr, st'') ∧
          sr.audio_files = s.audio_files)) := by
  constructor
  · intro st tts id
    unfold get_next_question
    cases hg : _get_session st id with
    | mk os st₁ =>
      have hw : st₁.workFiles = st.workFiles := by
        have h0 := get_session_workFiles st id
        rw [hg] at h0
        exact h0
      cases os with
      | none => exact hw
      | some s =>
        simp only []
        split
        · exact hw
        · exact hw
  · intro st llm tts id payload r st' hsub
    obtain ⟨s, st₁, cfg, hq, hget, hcfg⟩ := submit_answer_ok_inv _ _ _ _ _ _ _ _ hsub
    have hpair := hsub.symm.trans
      (submit_answer_ok st true llm tts id payload s st₁ cfg hget hcfg hq)
    have hr' : Except.ok r = _ := congrArg Prod.fst hpair
    have hr2 := Except.ok.inj hr'
    have hst : st' = _ := congrArg Prod.snd hpair
    refine ⟨s, st₁, hget, ?_, ?_, ?_⟩
    · rw [hst]
      exact ⟨_, alookup_aset_self _ _ _, rfl⟩
    · intro u hu hne
      rw [hr2] at hu
      simp only [] at hu
      obtain rfl := Option.some.inj hu
      rw [hst]
      refine ⟨_, alookup_aset_self _ _ _, ?_⟩
      rw [if_pos hne]
    · rw [hst]
      exact ⟨_, _, get_session_reload _ _ _ rfl (alookup_aset_self _ _ _), rfl⟩

/-- Closed witness for C10: on the configured scenario store with TTS
succeeding, the response carries an audio reference, the cache has it, but
the working copy and the recovered session do not. -/
theorem audio_refs_not_in_snapshot_witness :
    (get_next_question store2 true "s1").2.workFiles = store2.workFiles ∧
    (∃ s st₁, _get_session store2 "s1" = (some s, st₁) ∧
      (∃ w, alookup store3t.workFiles "s1" = some w ∧
        w.audio_files = s.audio_files) ∧
      (∀ u, ({ followup_text := "Good.",
               audio_url := some "/audio/s1_q1_followup.mp3" } :
               FollowupResponse).audio_url = some u → u ≠ "" →
        ∃ sc, alookup store3t.sessions "s1" = some sc ∧
          sc.audio_files = s.audio_files ++ [u]) ∧
      (∃ sr st'', _get_session (dropCache store3t) "s1" = (some sr, st'') ∧
        sr.audio_files = s.audio_files)) :=
  ⟨audio_refs_not_in_snapshot.1 store2 true "s1",
   audio_refs_not_in_snapshot.2 store2 (some "Good.") true "s1" payload0
     { followup_text := "Good.", audio_url := some "/audio/s1_q1_followup.mp3" }
     store3t (by decide)⟩
